import Mathlib

/-!
Shallow embedding of the Intelligent Mail Barcode (IMB) codec from
`src/utils/imb_generator.py`, together with theorems checking the
natural-language specification against it.

Python strings are modelled as `List Char`.  Python's `//` and `%` on
integers floor-divide and return a remainder with the divisor's sign;
for the positive divisors used throughout (2, 4, 1365, 2048) these
coincide with Lean's Euclidean `/` and `%` on `Int`, which we therefore
use directly.  A Python function that can raise (`int()` on a malformed
string) is modelled with `Option`, `none` standing for the uncaught
exception.
-/

namespace IMB

abbrev Str := List Char

/-- Python `str.isdigit` restricted to the ASCII strings this codec
handles: true iff the string is non-empty and all characters are
decimal digits. -/
def pyIsDigit (s : Str) : Bool := !s.isEmpty && s.all Char.isDigit

/-- Python `str.zfill`: if the string is at least `w` long it is
returned unchanged, otherwise it is left-padded with `'0'` to length
`w`, except that a leading sign character stays in front of the
inserted zeros. -/
def zfill (s : Str) (w : Nat) : Str :=
  if w ≤ s.length then s
  else
    match s with
    | [] => List.replicate w '0'
    | c :: rest =>
      if c = '-' ∨ c = '+' then c :: (List.replicate (w - (rest.length + 1)) '0' ++ rest)
      else List.replicate (w - (rest.length + 1)) '0' ++ (c :: rest)

/-- Numeric value of a decimal digit character. -/
def digitVal (c : Char) : Nat := c.toNat - '0'.toNat

/-- Value of a string of decimal digits read in base 10. -/
def decValue (s : Str) : Nat := s.foldl (fun a c => 10 * a + digitVal c) 0

/-- Python `int(string)`: an optional single leading sign followed by
one or more digits; anything else raises `ValueError`, modelled as
`none`. -/
def pyInt? (s : Str) : Option Int :=
  match s with
  | [] => none
  | c :: rest =>
    if c = '-' then (if pyIsDigit rest then some (-(decValue rest : Int)) else none)
    else if c = '+' then (if pyIsDigit rest then some ((decValue rest : Int)) else none)
    else if pyIsDigit (c :: rest) then some ((decValue (c :: rest) : Int)) else none

/-- Python `str.replace('-', '')`. -/
def stripHyphens (s : Str) : Str := s.filter (fun c => c ≠ '-')

/-- The validation error messages appended by `validate_inputs`, one
constructor per `errors.append` site, carrying the data interpolated
into the Python message string. -/
inductive VError where
  | barcodeIdError (got : Str)
  | serviceTypeError (got : Str)
  | mailerIdLenError (gotLen : Nat)
  | mailerIdDigitsError
  | sequenceTooLargeError (maxLen : Int) (mailerLen : Nat)
  | routingLenError (gotLen : Nat)
  | routingDigitsError
deriving DecidableEq

/-- The enumerated service types accepted by the validator. -/
def valid_stids : List Str :=
  ["040".toList, "240".toList, "271".toList, "340".toList, "440".toList, "540".toList]

/-- The `IMBGenerator` object state set in `__init__`: `barcode_id`
zero-filled to 2 and `service_type` zero-filled to 3.  (The stored
`mailer_id` field is never read by the methods modelled here; the
methods take the mailer id as a parameter.) -/
structure IMBGenerator where
  barcode_id : Str
  service_type : Str
deriving DecidableEq

/-- `IMBGenerator.__init__`. -/
def IMBGenerator.init (barcode_id service_type : Str) : IMBGenerator :=
  { barcode_id := zfill barcode_id 2, service_type := zfill service_type 3 }

/-- `IMBGenerator.validate_inputs`.  All checks run (no
short-circuiting); the error list is the concatenation of the
individual checks' messages in source order.  The sequence length
bound is computed in `Int` because Python's `15 - len(mailer_id_str)`
can be negative. -/
def IMBGenerator.validate_inputs (g : IMBGenerator)
    (mailer_id sequence_num routing_code : Str) : List VError :=
  (if pyIsDigit g.barcode_id = false ∨ g.barcode_id.length ≠ 2 then
      [VError.barcodeIdError g.barcode_id] else []) ++
  (if g.service_type ∉ valid_stids then [VError.serviceTypeError g.service_type] else []) ++
  (if mailer_id.length ∉ [6, 9] then [VError.mailerIdLenError mailer_id.length] else []) ++
  (if pyIsDigit mailer_id = false then [VError.mailerIdDigitsError] else []) ++
  (if 15 - (mailer_id.length : Int) < (sequence_num.length : Int) then
      [VError.sequenceTooLargeError (15 - (mailer_id.length : Int)) mailer_id.length] else []) ++
  (if (stripHyphens routing_code).length ∉ [0, 5, 9, 11] then
      [VError.routingLenError (stripHyphens routing_code).length] else []) ++
  (if stripHyphens routing_code ≠ [] ∧ (stripHyphens routing_code).all Char.isDigit = false then
      [VError.routingDigitsError] else [])

/-- `IMBGenerator.generate_tracking_code`: zero-fill the mailer id to 6
(natural length ≤ 6) or 9 digits, the sequence to the balancing width,
the hyphen-stripped routing code to 11 digits (eleven zeros when the
routing argument is empty), and concatenate after the barcode id and
service type. -/
def IMBGenerator.generate_tracking_code (g : IMBGenerator)
    (mailer_id sequence_num routing_code : Str) : Str :=
  let mailer_id_str := if mailer_id.length ≤ 6 then zfill mailer_id 6 else zfill mailer_id 9
  let sequence_len := 15 - mailer_id_str.length
  let sequence_str := zfill sequence_num sequence_len
  let routing_str :=
    if routing_code.isEmpty then List.replicate 11 '0' else zfill (stripHyphens routing_code) 11
  g.barcode_id ++ g.service_type ++ mailer_id_str ++ sequence_str ++ routing_str

/-- The polynomial constant `CRC_POLYNOMIAL = 0x0F35`. -/
def CRC_POLYNOMIAL : Nat := 0x0F35

/-- One iteration of the CRC loop body: conditionally XOR the register
with `0x7FF` on the tracking integer's low bit, then shift the register
right, XORing in the polynomial when the shifted-out bit was 1. -/
def crc_step (tracking_int : Int) (crc : Nat) : Nat :=
  let crc1 := if tracking_int % 2 = 1 then crc ^^^ 0x7FF else crc
  if crc1 % 2 = 1 then (crc1 / 2) ^^^ CRC_POLYNOMIAL else crc1 / 2

/-- The 102-iteration loop of `calculate_crc`, with the tracking
integer shifted right once per iteration. -/
def crc_loop : Nat → Int → Nat → Nat
  | 0, _, crc => crc
  | n + 1, t, crc => crc_loop n (t / 2) (crc_step t crc)

/-- `calculate_crc` after the `int()` conversion succeeded. -/
def calculate_crc_int (tracking_int : Int) : Nat := crc_loop 102 tracking_int 0x7FF

/-- `IMBGenerator.calculate_crc` on the tracking-code string:
`int(tracking_code)` followed by the bit loop; `none` models the
`ValueError` when the string is not an integer literal. -/
def calculate_crc (tracking_code : Str) : Option Nat :=
  (pyInt? tracking_code).map calculate_crc_int

/-- The codeword-extraction loop of `encode_to_codewords`: repeatedly
take `combined % 1365` and divide by 1365. -/
def encode_loop : Nat → Int → List Int
  | 0, _ => []
  | n + 1, combined => combined % 1365 :: encode_loop n (combined / 1365)

/-- `encode_to_codewords` after the `int()` conversion succeeded:
combine as `tracking_int * 2048 + crc` and extract 10 base-1365
digits, least significant first. -/
def encode_to_codewords_int (tracking_int : Int) (crc : Nat) : List Int :=
  encode_loop 10 (tracking_int * 2048 + (crc : Int))

/-- `IMBGenerator.encode_to_codewords` on the tracking-code string. -/
def encode_to_codewords (tracking_code : Str) (crc : Nat) : Option (List Int) :=
  (pyInt? tracking_code).map (fun t => encode_to_codewords_int t crc)

/-- The `BARCODE_CHARS` table `{0: 'T', 1: 'D', 2: 'A', 3: 'F'}`,
always indexed with a value reduced mod 4. -/
def BARCODE_CHARS (v : Int) : Char :=
  if v = 0 then 'T' else if v = 1 then 'D' else if v = 2 then 'A' else 'F'

/-- The 7-iteration loop of `_codeword_to_chars`: emit the character
for `value % 4`, then divide `value` by 4. -/
def codeword_chars_loop : Nat → Int → List Char
  | 0, _ => []
  | n + 1, value => BARCODE_CHARS (value % 4) :: codeword_chars_loop n (value / 4)

/-- `IMBGenerator._codeword_to_chars`. -/
def codeword_to_chars (codeword : Int) : List Char := codeword_chars_loop 7 codeword

/-- `IMBGenerator.codewords_to_characters`: concatenate every
codeword's 7-character expansion, keep the first 65 characters, and
right-pad with `'T'` if fewer than 65 were produced. -/
def codewords_to_characters (codewords : List Int) : Str :=
  let characters := (codewords.map codeword_to_chars).flatten
  let barcode := characters.take 65
  if barcode.length < 65 then barcode ++ List.replicate (65 - barcode.length) 'T' else barcode

/-- The dictionary returned by `generate_barcode`. -/
structure GBResult where
  valid : Bool
  errors : List VError
  tracking_code : Option Str
  barcode : Option Str
  crc : Option Nat
deriving DecidableEq

/-- `IMBGenerator.generate_barcode`: validate, and on success run the
pipeline.  `none` models the uncaught `ValueError` raised inside
`calculate_crc` (and `encode_to_codewords`) when the assembled
tracking code is not an integer literal; both call sites parse the
same string, so a single parse is faithful. -/
def IMBGenerator.generate_barcode (g : IMBGenerator)
    (mailer_id sequence_num routing_code : Str) : Option GBResult :=
  let errors := g.validate_inputs mailer_id sequence_num routing_code
  if errors ≠ [] then
    some { valid := false, errors := errors, tracking_code := none, barcode := none, crc := none }
  else
    let tracking_code := g.generate_tracking_code mailer_id sequence_num routing_code
    match pyInt? tracking_code with
    | none => none
    | some tracking_int =>
      let crc := calculate_crc_int tracking_int
      let codewords := encode_to_codewords_int tracking_int crc
      let barcode := codewords_to_characters codewords
      some { valid := true, errors := [], tracking_code := some tracking_code,
             barcode := some barcode, crc := some crc }

/-- `build_routing_code`: zero-fill zip5/zip4/delivery point to
5/4/2 digits, with all-zero defaults for empty components, and
concatenate. -/
def build_routing_code (zip5 zip4 delivery_point : Str) : Str :=
  (if zip5.isEmpty then "00000".toList else zfill zip5 5) ++
  (if zip4.isEmpty then "0000".toList else zfill zip4 4) ++
  (if delivery_point.isEmpty then "00".toList else zfill delivery_point 2)

/-! ### Spec-side definitions

These definitions follow the wording of `spec.md` (and of the claims
derived from it), to be compared with the code-side definitions above.
They are used only in refinement statements. -/

/-- Spec wording: left-pad a decimal string with zero digits to width
`w` (no sign handling; the spec's fields are unsigned decimal
strings). -/
def padLeftZeros (s : Str) (w : Nat) : Str := List.replicate (w - s.length) '0' ++ s

/-- Spec wording (§4.2): barcodeId ‖ serviceType ‖ paddedMailerId ‖
paddedSequence ‖ paddedRouting, with the mailer id padded to 6 digits
when its natural length is at most 6 and to 9 otherwise, the sequence
padded to the balancing width, and the routing code hyphen-stripped
and padded to 11 digits (eleven zeros when empty). -/
def specTrackingCode (barcodeId serviceType mailerId sequenceNumber routingCode : Str) : Str :=
  let paddedMailer := if mailerId.length ≤ 6 then padLeftZeros mailerId 6
                      else padLeftZeros mailerId 9
  let paddedSequence := padLeftZeros sequenceNumber (15 - paddedMailer.length)
  let paddedRouting := if routingCode.isEmpty then List.replicate 11 '0'
                       else padLeftZeros (stripHyphens routingCode) 11
  barcodeId ++ serviceType ++ paddedMailer ++ paddedSequence ++ paddedRouting

/-- One round of the spec's checksum computation (§4.3): if the
consumed tracking bit is 1, XOR the register with `0x7FF`; then shift
the register right, XORing with the polynomial `0x0F35` when the
register's least-significant bit was 1. -/
def spec_crc_round (bit : Nat) (reg : Nat) : Nat :=
  let reg1 := if bit = 1 then reg ^^^ 0x7FF else reg
  if reg1 % 2 = 1 then (reg1 / 2) ^^^ 0x0F35 else reg1 / 2

/-- The spec's reference checksum (§4.3): start the register at
`0x7FF` and run 102 rounds, round `i` consuming bit `i` (value
`t / 2 ^ i % 2`) of the tracking-code integer, least-significant bit
first. -/
def specChecksum (t : Nat) : Nat :=
  (List.range 102).foldl (fun reg i => spec_crc_round (t / 2 ^ i % 2) reg) 0x7FF

/-- The spec's fixed symbol table (§4.5): {0→'T', 1→'D', 2→'A',
3→'F'}. -/
def SPEC_SYMBOL_TABLE (v : Int) : Char :=
  if v = 0 then 'T' else if v = 1 then 'D' else if v = 2 then 'A' else 'F'

/-- Spec wording (§4.5): the 7 symbols of one codeword; symbol `j` is
the table entry for base-4 digit `j` of the codeword, least
significant first. -/
def specCodewordSymbols (cw : Int) : List Char :=
  (List.range 7).map (fun j => SPEC_SYMBOL_TABLE (cw / 4 ^ j % 4))

/-- Spec wording (§4.5): concatenate all codewords' symbols in
codeword order, truncate to the first 65, and right-pad with 'T' when
fewer than 65 were produced. -/
def specSymbolMapper (codewords : List Int) : Str :=
  let syms := (codewords.map specCodewordSymbols).flatten
  let t := syms.take 65
  t ++ List.replicate (65 - t.length) 'T'

/-- Spec wording (§4.6): zip5, zip4 and deliveryPoint zero-padded to
5, 4 and 2 digits ("00000", "0000", "00" when absent/empty),
concatenated in that order. -/
def specRoutingCode (zip5 zip4 deliveryPoint : Str) : Str :=
  (if zip5.isEmpty then "00000".toList else padLeftZeros zip5 5) ++
  (if zip4.isEmpty then "0000".toList else padLeftZeros zip4 4) ++
  (if deliveryPoint.isEmpty then "00".toList else padLeftZeros deliveryPoint 2)

/-! ### Helper lemmas -/

theorem ite_singleton_eq_nil {c : Prop} [Decidable c] (x : VError) :
    (if c then [x] else []) = ([] : List VError) ↔ ¬c := by
  split <;> simp_all

theorem mem_ite_singleton {c : Prop} [Decidable c] (x y : VError) :
    (x ∈ if c then [y] else []) ↔ c ∧ x = y := by
  split <;> simp_all

theorem digit_ne_minus {c : Char} (h : c.isDigit = true) : ¬(c = '-' ∨ c = '+') := by
  rintro (rfl | rfl) <;> exact absurd h (by decide)

theorem zfill_length (s : Str) (w : Nat) : (zfill s w).length = max s.length w := by
  unfold zfill
  split
  · exact (Nat.max_eq_left (by assumption)).symm
  · rename_i hlt
    cases s with
    | nil => simp
    | cons c rest =>
      simp only [List.length_cons] at hlt ⊢
      split <;> simp <;> omega

theorem zfill_of_digits {s : Str} (h : s.all Char.isDigit = true) (w : Nat) :
    zfill s w = List.replicate (w - s.length) '0' ++ s := by
  unfold zfill
  split
  · rename_i hle
    rw [Nat.sub_eq_zero_of_le hle]
    simp
  · cases s with
    | nil => simp
    | cons c rest =>
      simp only [List.all_cons, Bool.and_eq_true] at h
      show (if c = '-' ∨ c = '+' then c :: (List.replicate (w - (rest.length + 1)) '0' ++ rest)
            else List.replicate (w - (rest.length + 1)) '0' ++ (c :: rest)) =
           List.replicate (w - (c :: rest).length) '0' ++ (c :: rest)
      rw [if_neg (digit_ne_minus h.1)]
      simp

theorem zfill_all_digits {s : Str} (h : s.all Char.isDigit = true) (w : Nat) :
    (zfill s w).all Char.isDigit = true := by
  rw [zfill_of_digits h w, List.all_append, h, Bool.and_true, List.all_eq_true]
  intro c hc
  rw [List.eq_of_mem_replicate hc]
  decide

theorem pyInt?_of_digits {s : Str} (h0 : s ≠ []) (h : s.all Char.isDigit = true) :
    pyInt? s = some ((decValue s : Nat) : Int) := by
  cases s with
  | nil => exact absurd rfl h0
  | cons c rest =>
    simp only [List.all_cons, Bool.and_eq_true] at h
    have hd := digit_ne_minus h.1
    have h3 : pyIsDigit (c :: rest) = true := by
      simp [pyIsDigit, List.all_cons, h.1, h.2]
    simp only [pyInt?]
    rw [if_neg (fun e => hd (Or.inl e)), if_neg (fun e => hd (Or.inr e)), if_pos h3]

theorem validate_inputs_eq_nil_iff (g : IMBGenerator) (m s r : Str) :
    g.validate_inputs m s r = [] ↔
      (pyIsDigit g.barcode_id = true ∧ g.barcode_id.length = 2) ∧
      g.service_type ∈ valid_stids ∧
      (m.length = 6 ∨ m.length = 9) ∧
      pyIsDigit m = true ∧
      (s.length : Int) ≤ 15 - (m.length : Int) ∧
      ((stripHyphens r).length = 0 ∨ (stripHyphens r).length = 5 ∨
        (stripHyphens r).length = 9 ∨ (stripHyphens r).length = 11) ∧
      (stripHyphens r = [] ∨ (stripHyphens r).all Char.isDigit = true) := by
  simp only [IMBGenerator.validate_inputs, List.append_eq_nil, ite_singleton_eq_nil,
    not_or, not_lt, Bool.not_eq_false, List.mem_cons, List.not_mem_nil, or_false,
    not_and, not_not, ne_eq]
  tauto

theorem mem_validate_inputs (e : VError) (g : IMBGenerator) (m s r : Str) :
    e ∈ g.validate_inputs m s r ↔
      ((pyIsDigit g.barcode_id = false ∨ g.barcode_id.length ≠ 2) ∧
        e = VError.barcodeIdError g.barcode_id) ∨
      (g.service_type ∉ valid_stids ∧ e = VError.serviceTypeError g.service_type) ∨
      (m.length ∉ [6, 9] ∧ e = VError.mailerIdLenError m.length) ∨
      (pyIsDigit m = false ∧ e = VError.mailerIdDigitsError) ∨
      (15 - (m.length : Int) < (s.length : Int) ∧
        e = VError.sequenceTooLargeError (15 - (m.length : Int)) m.length) ∨
      ((stripHyphens r).length ∉ [0, 5, 9, 11] ∧
        e = VError.routingLenError (stripHyphens r).length) ∨
      ((stripHyphens r ≠ [] ∧ (stripHyphens r).all Char.isDigit = false) ∧
        e = VError.routingDigitsError) := by
  simp only [IMBGenerator.validate_inputs, List.mem_append, mem_ite_singleton, or_assoc]

theorem int_bit_eq (t : Nat) : ((t : Int) % 2 = 1) ↔ t % 2 = 1 := by omega

theorem crc_step_cast (t : Nat) (reg : Nat) :
    crc_step (t : Int) reg = spec_crc_round (t % 2) reg := by
  simp only [crc_step, spec_crc_round, CRC_POLYNOMIAL]
  rw [if_congr (int_bit_eq t) rfl rfl]

theorem crc_loop_cast : ∀ (n : Nat) (t reg : Nat),
    crc_loop n (t : Int) reg =
      (List.range n).foldl (fun r i => spec_crc_round (t / 2 ^ i % 2) r) reg
  | 0, _, _ => rfl
  | n + 1, t, reg => by
    rw [List.range_succ_eq_map, List.foldl_cons, List.foldl_map, crc_loop]
    have h1 : ((t : Int) / 2) = ((t / 2 : Nat) : Int) := by norm_cast
    rw [h1, crc_step_cast, crc_loop_cast n (t / 2) (spec_crc_round (t % 2) reg)]
    simp only [Nat.div_div_eq_div_mul, ← pow_succ', pow_zero, Nat.div_one, Nat.succ_eq_add_one]

theorem encode_loop_cast : ∀ (n : Nat) (x : Nat),
    encode_loop n (x : Int) = (List.range n).map (fun i => ((x / 1365 ^ i % 1365 : Nat) : Int))
  | 0, _ => rfl
  | n + 1, x => by
    rw [List.range_succ_eq_map, List.map_cons, List.map_map, encode_loop]
    have h1 : ((x : Int) / 1365) = ((x / 1365 : Nat) : Int) := by norm_cast
    rw [h1, encode_loop_cast n (x / 1365)]
    congr 1
    · norm_cast
      simp [pow_zero]
    · simp only [Nat.div_div_eq_div_mul, ← pow_succ', Function.comp_def, Nat.succ_eq_add_one]

theorem codeword_chars_loop_cast : ∀ (n : Nat) (v : Nat),
    codeword_chars_loop n (v : Int) =
      (List.range n).map (fun j => BARCODE_CHARS ((v / 4 ^ j % 4 : Nat) : Int))
  | 0, _ => rfl
  | n + 1, v => by
    rw [List.range_succ_eq_map, List.map_cons, List.map_map, codeword_chars_loop]
    have h1 : ((v : Int) / 4) = ((v / 4 : Nat) : Int) := by norm_cast
    have h2 : ((v : Int) % 4) = ((v % 4 : Nat) : Int) := by norm_cast
    rw [h1, h2, codeword_chars_loop_cast n (v / 4)]
    congr 1
    · simp [pow_zero]
    · simp only [Nat.div_div_eq_div_mul, ← pow_succ', Function.comp_def, Nat.succ_eq_add_one]

theorem codeword_chars_loop_length (n : Nat) (v : Int) :
    (codeword_chars_loop n v).length = n := by
  induction n generalizing v with
  | zero => rfl
  | succ n ih => simp [codeword_chars_loop, ih]

theorem codeword_to_chars_length (cw : Int) : (codeword_to_chars cw).length = 7 :=
  codeword_chars_loop_length 7 cw

theorem flatten_chars_length (cws : List Int) :
    ((cws.map codeword_to_chars).flatten).length = 7 * cws.length := by
  induction cws with
  | nil => rfl
  | cons c t ih =>
    simp only [List.map_cons, List.flatten_cons, List.length_append,
      codeword_to_chars_length, ih, List.length_cons]
    ring

theorem BARCODE_CHARS_mem (v : Int) : BARCODE_CHARS v ∈ ['T', 'D', 'A', 'F'] := by
  unfold BARCODE_CHARS
  split
  · decide
  split
  · decide
  split
  · decide
  · decide

theorem mem_codeword_chars_loop {ch : Char} :
    ∀ (n : Nat) (v : Int), ch ∈ codeword_chars_loop n v → ch ∈ ['T', 'D', 'A', 'F']
  | 0, _, h => absurd h (List.not_mem_nil ch)
  | n + 1, v, h => by
    rw [codeword_chars_loop, List.mem_cons] at h
    rcases h with rfl | h
    · exact BARCODE_CHARS_mem _
    · exact mem_codeword_chars_loop n (v / 4) h

theorem codeword_to_chars_eq_spec {x : Int} (hx : 0 ≤ x) :
    codeword_to_chars x = specCodewordSymbols x := by
  obtain ⟨v, rfl⟩ := Int.eq_ofNat_of_zero_le hx
  rw [codeword_to_chars, codeword_chars_loop_cast 7 v, specCodewordSymbols]
  refine List.map_congr_left fun j _ => ?_
  show BARCODE_CHARS ((v / 4 ^ j % 4 : Nat) : Int) = SPEC_SYMBOL_TABLE ((v : Int) / 4 ^ j % 4)
  have hc : ((v / 4 ^ j % 4 : Nat) : Int) = (v : Int) / 4 ^ j % 4 := by push_cast; rfl
  rw [hc]
  rfl

theorem zfill_of_le {s : Str} {w : Nat} (h : w ≤ s.length) : zfill s w = s := by
  unfold zfill
  rw [if_pos h]

theorem pyIsDigit_all {s : Str} (h : pyIsDigit s = true) : s.all Char.isDigit = true := by
  simp only [pyIsDigit, Bool.and_eq_true] at h
  exact h.2

theorem replicate_zero_digits (n : Nat) : (List.replicate n '0').all Char.isDigit = true := by
  rw [List.all_eq_true]
  intro c hc
  rw [List.eq_of_mem_replicate hc]
  decide

theorem stid_length : ∀ x ∈ valid_stids, List.length x = 3 := by decide

theorem stid_digits : ∀ x ∈ valid_stids, List.all x Char.isDigit = true := by decide

/-! ### Claim theorems -/

/-- C8: `validate_inputs` emits a service-type violation iff the
generator's service type lies outside the enumerated set
{040, 240, 271, 340, 440, 540}; in particular "999" is rejected even
though it is 3 numeric digits, and a service type in the set never
produces a service-type error. -/
theorem C8_service_type_enumeration :
    (∀ (g : IMBGenerator) (m s r : Str),
        (∃ x, VError.serviceTypeError x ∈ g.validate_inputs m s r) ↔
          g.service_type ∉ valid_stids) ∧
    (VError.serviceTypeError "999".toList ∈
        (IMBGenerator.init "00".toList "999".toList).validate_inputs
          "123456".toList "1".toList "90210543201".toList) ∧
    (∀ (g : IMBGenerator) (m s r : Str), g.service_type ∈ valid_stids →
        ∀ x, VError.serviceTypeError x ∉ g.validate_inputs m s r) := by
  have main : ∀ (g : IMBGenerator) (m s r : Str),
      (∃ x, VError.serviceTypeError x ∈ g.validate_inputs m s r) ↔
        g.service_type ∉ valid_stids := by
    intro g m s r
    constructor
    · rintro ⟨x, hx⟩
      rw [mem_validate_inputs] at hx
      rcases hx with ⟨_, h⟩|⟨hc, _⟩|⟨_, h⟩|⟨_, h⟩|⟨_, h⟩|⟨_, h⟩|⟨_, h⟩
      · exact absurd h (by simp)
      · exact hc
      · exact absurd h (by simp)
      · exact absurd h (by simp)
      · exact absurd h (by simp)
      · exact absurd h (by simp)
      · exact absurd h (by simp)
    · intro hns
      exact ⟨g.service_type,
        (mem_validate_inputs _ g m s r).mpr (Or.inr (Or.inl ⟨hns, rfl⟩))⟩
  exact ⟨main, by decide, fun g m s r hmem x hx => (main g m s r).mp ⟨x, hx⟩ hmem⟩

/-- C9: the validator never checks the sequence number for digits: any
sequence whose length fits the 15-minus-mailer-id budget yields no
sequence-related error even if non-numeric; consequently the
validator-accepted input mailerId="123456", sequence "-1",
routing "90210543201" makes the assembled tracking code fail the
`int()` conversion, and `generate_barcode` raises (returns no result
dictionary) instead of returning one. -/
theorem C9_sequence_not_checked_numeric :
    (∀ (g : IMBGenerator) (m s r : Str),
        (s.length : Int) ≤ 15 - (m.length : Int) →
        ∀ (L : Int) (M : Nat), VError.sequenceTooLargeError L M ∉ g.validate_inputs m s r) ∧
    ((IMBGenerator.init "00".toList "040".toList).validate_inputs
        "123456".toList "-1".toList "90210543201".toList = [] ∧
      pyInt? ((IMBGenerator.init "00".toList "040".toList).generate_tracking_code
        "123456".toList "-1".toList "90210543201".toList) = none ∧
      (IMBGenerator.init "00".toList "040".toList).generate_barcode
        "123456".toList "-1".toList "90210543201".toList = none) := by
  constructor
  · intro g m s r hfit L M hx
    rw [mem_validate_inputs] at hx
    rcases hx with ⟨_, h⟩|⟨_, h⟩|⟨_, h⟩|⟨_, h⟩|⟨hc, _⟩|⟨_, h⟩|⟨_, h⟩
    · exact absurd h (by simp)
    · exact absurd h (by simp)
    · exact absurd h (by simp)
    · exact absurd h (by simp)
    · exact absurd hfit (not_le.mpr hc)
    · exact absurd h (by simp)
    · exact absurd h (by simp)
  · exact ⟨by decide, by decide, by decide⟩

/-- Witness for C8: the in-set service type "040" produces no
service-type error on a concrete call. -/
theorem C8_witness :
    ((IMBGenerator.init "00".toList "040".toList).service_type ∈ valid_stids) ∧
    VError.serviceTypeError "999".toList ∉
      (IMBGenerator.init "00".toList "040".toList).validate_inputs
        "123456".toList "1".toList "90210543201".toList :=
  ⟨by decide, C8_service_type_enumeration.2.2
    (IMBGenerator.init "00".toList "040".toList)
    "123456".toList "1".toList "90210543201".toList (by decide) "999".toList⟩

/-- Witness for C9: at mailer id "123456" and sequence "-12345678"
(length 9, exactly the budget) the sequence passes with no
sequence-related error. -/
theorem C9_witness :
    ((("-12345678".toList : Str).length : Int) ≤ 15 - (("123456".toList : Str).length : Int)) ∧
    VError.sequenceTooLargeError 9 6 ∉
      (IMBGenerator.init "00".toList "040".toList).validate_inputs
        "123456".toList "-12345678".toList "90210543201".toList :=
  ⟨by decide, C9_sequence_not_checked_numeric.1
    (IMBGenerator.init "00".toList "040".toList)
    "123456".toList "-12345678".toList "90210543201".toList (by decide) 9 6⟩

/-- C6: for every non-negative tracking-code integer t and checksum c,
the encoder returns exactly 10 codewords, the i-th (0-based, first
produced = least significant) being ((t * 2048 + c) / 1365 ^ i) % 1365,
and every codeword lies in [0, 1364]. -/
theorem C6_codeword_extraction (t c : Nat) :
    encode_to_codewords_int (t : Int) c =
      (List.range 10).map (fun i => (((t * 2048 + c) / 1365 ^ i % 1365 : Nat) : Int)) ∧
    ∀ x ∈ encode_to_codewords_int (t : Int) c, 0 ≤ x ∧ x ≤ 1364 := by
  have hcomb : ((t : Int) * 2048 + (c : Nat)) = ((t * 2048 + c : Nat) : Int) := by
    push_cast
    ring
  have hmain : encode_to_codewords_int (t : Int) c =
      (List.range 10).map (fun i => (((t * 2048 + c) / 1365 ^ i % 1365 : Nat) : Int)) := by
    rw [encode_to_codewords_int, hcomb, encode_loop_cast]
  refine ⟨hmain, ?_⟩
  intro x hx
  rw [hmain] at hx
  simp only [List.mem_map] at hx
  obtain ⟨i, _, rfl⟩ := hx
  have hlt : (t * 2048 + c) / 1365 ^ i % 1365 < 1365 := Nat.mod_lt _ (by norm_num)
  constructor
  · exact Int.natCast_nonneg _
  · omega

/-- Witness for C6: at t = 5, c = 3 the first codeword 688 is a member
and lies in [0, 1364]. -/
theorem C6_witness :
    ((688 : Int) ∈ encode_to_codewords_int ((5 : Nat) : Int) 3) ∧
    (0 : Int) ≤ 688 ∧ (688 : Int) ≤ 1364 :=
  ⟨by decide, (C6_codeword_extraction 5 3).2 688 (by decide)⟩

/-- C5: for every list of 10 codewords (non-negative, as the encoder
produces), codewords_to_characters equals the spec's symbol mapping —
each codeword expanded to 7 symbols through {0→T, 1→D, 2→A, 3→F} on
successive base-4 digits, concatenated in codeword order, truncated to
65, padded with 'T' when short — and the result is exactly 65
characters over the alphabet {T, D, A, F}. -/
theorem C5_symbol_mapping (cws : List Int) (hlen : cws.length = 10)
    (hnn : ∀ x ∈ cws, 0 ≤ x) :
    codewords_to_characters cws = specSymbolMapper cws ∧
    (codewords_to_characters cws).length = 65 ∧
    ∀ ch ∈ codewords_to_characters cws, ch ∈ ['T', 'D', 'A', 'F'] := by
  have hmap : cws.map codeword_to_chars = cws.map specCodewordSymbols :=
    List.map_congr_left fun x hx => codeword_to_chars_eq_spec (hnn x hx)
  have hflat : ((cws.map codeword_to_chars).flatten).length = 70 := by
    rw [flatten_chars_length, hlen]
  have htake : (((cws.map codeword_to_chars).flatten).take 65).length = 65 := by
    rw [List.length_take, hflat]
    omega
  have hbar : codewords_to_characters cws = ((cws.map codeword_to_chars).flatten).take 65 := by
    show (if (((cws.map codeword_to_chars).flatten).take 65).length < 65 then
            ((cws.map codeword_to_chars).flatten).take 65 ++
              List.replicate (65 - (((cws.map codeword_to_chars).flatten).take 65).length) 'T'
          else ((cws.map codeword_to_chars).flatten).take 65) =
        ((cws.map codeword_to_chars).flatten).take 65
    rw [htake]
    simp
  have hspec : specSymbolMapper cws = ((cws.map codeword_to_chars).flatten).take 65 := by
    show ((cws.map specCodewordSymbols).flatten).take 65 ++
          List.replicate (65 - (((cws.map specCodewordSymbols).flatten).take 65).length) 'T' =
        ((cws.map codeword_to_chars).flatten).take 65
    rw [← hmap, htake]
    simp
  refine ⟨by rw [hbar, hspec], by rw [hbar]; exact htake, ?_⟩
  intro ch hch
  rw [hbar] at hch
  have hmem := List.take_subset 65 _ hch
  rw [List.mem_flatten] at hmem
  obtain ⟨l, hl, hch'⟩ := hmem
  rw [List.mem_map] at hl
  obtain ⟨cw, _, rfl⟩ := hl
  exact mem_codeword_chars_loop 7 cw hch'

/-- Witness for C5: the golden codeword list from the worked example. -/
theorem C5_witness :
    (([32, 778, 843, 1304, 13, 1044, 612, 1121, 680, 499] : List Int).length = 10) ∧
    codewords_to_characters [32, 778, 843, 1304, 13, 1044, 612, 1121, 680, 499] =
      specSymbolMapper [32, 778, 843, 1304, 13, 1044, 612, 1121, 680, 499] ∧
    (codewords_to_characters [32, 778, 843, 1304, 13, 1044, 612, 1121, 680, 499]).length = 65 :=
  ⟨by decide,
    (C5_symbol_mapping [32, 778, 843, 1304, 13, 1044, 612, 1121, 680, 499]
      (by decide) (by decide)).1,
    (C5_symbol_mapping [32, 778, 843, 1304, 13, 1044, 612, 1121, 680, 499]
      (by decide) (by decide)).2.1⟩

/-- C10: for 10 codewords the symbol expansion yields exactly 70
symbols, the pad branch is unreachable, and the barcode is the pure
truncation: all 7 symbols of codewords 0–8 followed by the first 2
symbols of codeword 9; hence the barcode depends on codeword 9 only
through codeword 9 mod 16. -/
theorem C10_pure_truncation (c0 c1 c2 c3 c4 c5 c6 c7 c8 c9 : Int) :
    ((([c0, c1, c2, c3, c4, c5, c6, c7, c8, c9] : List Int).map codeword_to_chars).flatten).length
        = 70 ∧
    codewords_to_characters [c0, c1, c2, c3, c4, c5, c6, c7, c8, c9] =
      (([c0, c1, c2, c3, c4, c5, c6, c7, c8] : List Int).map codeword_to_chars).flatten ++
        [BARCODE_CHARS (c9 % 4), BARCODE_CHARS (c9 / 4 % 4)] ∧
    codewords_to_characters [c0, c1, c2, c3, c4, c5, c6, c7, c8, c9] =
      codewords_to_characters [c0, c1, c2, c3, c4, c5, c6, c7, c8, c9 % 16] := by
  refine ⟨rfl, rfl, ?_⟩
  have h1 : c9 % 16 % 4 = c9 % 4 := by omega
  have h2 : c9 % 16 / 4 % 4 = c9 / 4 % 4 := by omega
  have e1 : codewords_to_characters [c0, c1, c2, c3, c4, c5, c6, c7, c8, c9 % 16] =
      (([c0, c1, c2, c3, c4, c5, c6, c7, c8] : List Int).map codeword_to_chars).flatten ++
        [BARCODE_CHARS (c9 % 16 % 4), BARCODE_CHARS (c9 % 16 / 4 % 4)] := rfl
  rw [e1, h1, h2]
  rfl

/-- C4: for every 31-digit decimal tracking-code string,
`calculate_crc` equals the spec's reference bit-serial computation:
register initialised to 0x7FF, 102 rounds each consuming one bit of
the tracking integer (least significant first), conditionally XORing
the register with 0x7FF, then shifting it right and XORing with 0x0F35
when the shifted-out bit was 1. -/
theorem C4_crc_matches_spec (s : Str) (hlen : s.length = 31)
    (hdig : s.all Char.isDigit = true) :
    calculate_crc s = some (specChecksum (decValue s)) := by
  have hne : s ≠ [] := by
    intro h
    rw [h] at hlen
    simp at hlen
  rw [calculate_crc, pyInt?_of_digits hne hdig]
  show some (calculate_crc_int ((decValue s : Nat) : Int)) = some (specChecksum (decValue s))
  rw [calculate_crc_int, crc_loop_cast, specChecksum]

/-- Witness for C4: the worked example's tracking code. -/
theorem C4_witness :
    ("0004012345600000000190210543201".toList : Str).length = 31 ∧
    ("0004012345600000000190210543201".toList : Str).all Char.isDigit = true ∧
    calculate_crc "0004012345600000000190210543201".toList =
      some (specChecksum (decValue "0004012345600000000190210543201".toList)) :=
  ⟨by decide, by decide, C4_crc_matches_spec _ (by decide) (by decide)⟩

set_option maxRecDepth 8000 in
/-- C1 (code bug): the checksum does NOT always fit in 11 bits.  On
the validator-accepted input mailer "123456", sequence "0", routing
"90210543201" the tracking code is "0004012345600000000090210543201"
and `calculate_crc` returns 2080 > 2047, contradicting the spec's
[0, 2047] range and the code's own docstring ("Returns: 11-bit CRC
value"): XORing in the 12-bit polynomial 0x0F35 lets the register
leave the 11-bit range. -/
theorem C1_checksum_exceeds_11_bits :
    (IMBGenerator.init "00".toList "040".toList).validate_inputs
        "123456".toList "0".toList "90210543201".toList = [] ∧
    (IMBGenerator.init "00".toList "040".toList).generate_tracking_code
        "123456".toList "0".toList "90210543201".toList =
      "0004012345600000000090210543201".toList ∧
    calculate_crc "0004012345600000000090210543201".toList = some 2080 ∧
    2047 < 2080 :=
  ⟨by decide, by decide, by decide, by norm_num⟩

/-- C7 (amended): `build_routing_code` is total and returns the
concatenation of the three zero-filled components with all-zero
defaults; for decimal components it matches the spec-side definition,
when each component is no longer than its field width the result has
exactly 11 characters (and is all digits for decimal components), and
the worked example holds.  (For an over-long component such as
zip5 = "123456" the result is longer than 11 — see the
counterexample.) -/
theorem C7_routing_builder :
    (∀ z5 z4 dp : Str, z5.all Char.isDigit = true → z4.all Char.isDigit = true →
        dp.all Char.isDigit = true →
        build_routing_code z5 z4 dp = specRoutingCode z5 z4 dp) ∧
    (∀ z5 z4 dp : Str, z5.length ≤ 5 → z4.length ≤ 4 → dp.length ≤ 2 →
        (build_routing_code z5 z4 dp).length = 11) ∧
    (∀ z5 z4 dp : Str, z5.all Char.isDigit = true → z4.all Char.isDigit = true →
        dp.all Char.isDigit = true →
        (build_routing_code z5 z4 dp).all Char.isDigit = true) ∧
    build_routing_code "90210".toList "5432".toList "01".toList = "90210543201".toList := by
  refine ⟨?_, ?_, ?_, by decide⟩
  · intro z5 z4 dp h5 h4 h2
    rw [build_routing_code, specRoutingCode]
    have e5 : (if z5.isEmpty then "00000".toList else zfill z5 5) =
        (if z5.isEmpty then "00000".toList else padLeftZeros z5 5) := by
      split
      · rfl
      · rw [zfill_of_digits h5, padLeftZeros]
    have e4 : (if z4.isEmpty then "0000".toList else zfill z4 4) =
        (if z4.isEmpty then "0000".toList else padLeftZeros z4 4) := by
      split
      · rfl
      · rw [zfill_of_digits h4, padLeftZeros]
    have e2 : (if dp.isEmpty then "00".toList else zfill dp 2) =
        (if dp.isEmpty then "00".toList else padLeftZeros dp 2) := by
      split
      · rfl
      · rw [zfill_of_digits h2, padLeftZeros]
    rw [e5, e4, e2]
  · intro z5 z4 dp h5 h4 h2
    rw [build_routing_code]
    simp only [List.length_append]
    have l5 : (if z5.isEmpty then "00000".toList else zfill z5 5).length = 5 := by
      split
      · decide
      · rw [zfill_length]
        exact Nat.max_eq_right h5
    have l4 : (if z4.isEmpty then "0000".toList else zfill z4 4).length = 4 := by
      split
      · decide
      · rw [zfill_length]
        exact Nat.max_eq_right h4
    have l2 : (if dp.isEmpty then "00".toList else zfill dp 2).length = 2 := by
      split
      · decide
      · rw [zfill_length]
        exact Nat.max_eq_right h2
    rw [l5, l4, l2]
  · intro z5 z4 dp h5 h4 h2
    have p5 : (if z5.isEmpty then "00000".toList else zfill z5 5).all Char.isDigit = true := by
      split
      · decide
      · exact zfill_all_digits h5 5
    have p4 : (if z4.isEmpty then "0000".toList else zfill z4 4).all Char.isDigit = true := by
      split
      · decide
      · exact zfill_all_digits h4 4
    have p2 : (if dp.isEmpty then "00".toList else zfill dp 2).all Char.isDigit = true := by
      split
      · decide
      · exact zfill_all_digits h2 2
    rw [build_routing_code]
    simp only [List.all_append, Bool.and_eq_true]
    exact ⟨⟨p5, p4⟩, p2⟩

/-- Witness for C7: the worked routing example. -/
theorem C7_witness :
    ("90210".toList : Str).all Char.isDigit = true ∧
    build_routing_code "90210".toList "5432".toList "01".toList =
      specRoutingCode "90210".toList "5432".toList "01".toList ∧
    (build_routing_code "90210".toList "5432".toList "01".toList).length = 11 :=
  ⟨by decide,
    C7_routing_builder.1 "90210".toList "5432".toList "01".toList
      (by decide) (by decide) (by decide),
    C7_routing_builder.2.1 "90210".toList "5432".toList "01".toList
      (by decide) (by decide) (by decide)⟩

/-- Counterexample for C7 as stated: a decimal zip5 longer than 5
digits produces a 12-character result, not an 11-digit string. -/
theorem C7_counterexample :
    ("123456".toList : Str).all Char.isDigit = true ∧
    (build_routing_code "123456".toList "5432".toList "01".toList).length = 12 :=
  ⟨by decide, by decide⟩

/-- C3 (amended): for every validator-accepted input the tracking code
is the spec's concatenation and always has exactly 31 characters; it
consists of 31 decimal digits whenever the sequence number's string is
all digits (the validator does not enforce this — see the
counterexample); the worked example holds. -/
theorem C3_tracking_code_assembly :
    (∀ (g : IMBGenerator) (m s r : Str), g.validate_inputs m s r = [] →
        (g.generate_tracking_code m s r).length = 31 ∧
        (s.all Char.isDigit = true →
          g.generate_tracking_code m s r =
            specTrackingCode g.barcode_id g.service_type m s r ∧
          (g.generate_tracking_code m s r).all Char.isDigit = true)) ∧
    (IMBGenerator.init "00".toList "040".toList).generate_tracking_code
        "123456".toList "1".toList "90210543201".toList =
      "0004012345600000000190210543201".toList := by
  constructor
  · intro g m s r hacc
    rw [validate_inputs_eq_nil_iff] at hacc
    obtain ⟨⟨hbd, hb2⟩, hst, hm69, hmd, hsfit, hrlen, hrdig⟩ := hacc
    have hmstr : (if m.length ≤ 6 then zfill m 6 else zfill m 9) = m := by
      rcases hm69 with h | h
      · rw [if_pos (by omega), zfill_of_le (by omega)]
      · rw [if_neg (by omega), zfill_of_le (by omega)]
    have hseqfit : s.length ≤ 15 - m.length := by omega
    have hslen : (zfill s (15 - m.length)).length = 15 - m.length := by
      rw [zfill_length]
      exact Nat.max_eq_right hseqfit
    have hrle : (stripHyphens r).length ≤ 11 := by
      rcases hrlen with h | h | h | h <;> omega
    have hrstr_len :
        (if r.isEmpty then List.replicate 11 '0' else zfill (stripHyphens r) 11).length = 11 := by
      split
      · simp
      · rw [zfill_length]
        exact Nat.max_eq_right hrle
    have hrall : (stripHyphens r).all Char.isDigit = true := by
      rcases hrdig with h | h
      · rw [h]
        rfl
      · exact h
    constructor
    · simp only [IMBGenerator.generate_tracking_code]
      rw [hmstr]
      simp only [List.length_append]
      rw [hb2, stid_length g.service_type hst, hslen, hrstr_len]
      rcases hm69 with h | h <;> omega
    · intro hsd
      constructor
      · simp only [IMBGenerator.generate_tracking_code, specTrackingCode]
        rw [hmstr]
        have hmspec : (if m.length ≤ 6 then padLeftZeros m 6 else padLeftZeros m 9) = m := by
          rcases hm69 with h | h
          · rw [if_pos (by omega)]
            simp [padLeftZeros, h]
          · rw [if_neg (by omega)]
            simp [padLeftZeros, h]
        rw [hmspec]
        have hseq_eq : zfill s (15 - m.length) = padLeftZeros s (15 - m.length) := by
          rw [zfill_of_digits hsd, padLeftZeros]
        have hrout_eq :
            (if r.isEmpty then List.replicate 11 '0' else zfill (stripHyphens r) 11) =
              (if r.isEmpty then List.replicate 11 '0'
               else padLeftZeros (stripHyphens r) 11) := by
          split
          · rfl
          · rw [zfill_of_digits hrall, padLeftZeros]
        rw [hseq_eq, hrout_eq]
      · simp only [IMBGenerator.generate_tracking_code]
        rw [hmstr]
        simp only [List.all_append, Bool.and_eq_true]
        refine ⟨⟨⟨⟨pyIsDigit_all hbd, stid_digits g.service_type hst⟩,
          pyIsDigit_all hmd⟩, zfill_all_digits hsd _⟩, ?_⟩
        split
        · exact replicate_zero_digits 11
        · exact zfill_all_digits hrall 11
  · decide

/-- Counterexample for C3 as stated: the validator accepts the
non-numeric sequence "x" (its length fits the budget), and the
resulting tracking code is not made of 31 decimal digits. -/
theorem C3_counterexample :
    (IMBGenerator.init "00".toList "040".toList).validate_inputs
        "123456".toList "x".toList "90210543201".toList = [] ∧
    ((IMBGenerator.init "00".toList "040".toList).generate_tracking_code
        "123456".toList "x".toList "90210543201".toList).all Char.isDigit = false :=
  ⟨by decide, by decide⟩

/-- Witness for C3: the worked example's accepted input. -/
theorem C3_witness :
    ((IMBGenerator.init "00".toList "040".toList).validate_inputs
        "123456".toList "1".toList "90210543201".toList = []) ∧
    (("1".toList : Str).all Char.isDigit = true) ∧
    ((IMBGenerator.init "00".toList "040".toList).generate_tracking_code
        "123456".toList "1".toList "90210543201".toList).length = 31 ∧
    ((IMBGenerator.init "00".toList "040".toList).generate_tracking_code
        "123456".toList "1".toList "90210543201".toList).all Char.isDigit = true :=
  ⟨by decide, by decide,
    (C3_tracking_code_assembly.1 (IMBGenerator.init "00".toList "040".toList)
      "123456".toList "1".toList "90210543201".toList (by decide)).1,
    ((C3_tracking_code_assembly.1 (IMBGenerator.init "00".toList "040".toList)
      "123456".toList "1".toList "90210543201".toList (by decide)).2 (by decide)).2⟩

/-- C2 (amended): `generate_barcode` never returns a partial result:
with a non-empty error list the result is exactly
{valid: false, errors, all fields none}; with an empty error list and
an assembled tracking code that parses as an integer (which holds
whenever the sequence number is numeric) the result is
{valid: true, errors: [], all fields populated}; every returned
dictionary is one of those two shapes; and mailerId "12345" yields
the invalid shape with the mailer-id length error.  (For
validator-accepted inputs whose tracking code does not parse the call
raises instead of returning — see the counterexample.) -/
theorem C2_all_or_nothing :
    (∀ (g : IMBGenerator) (m s r : Str), g.validate_inputs m s r ≠ [] →
        g.generate_barcode m s r =
          some { valid := false, errors := g.validate_inputs m s r,
                 tracking_code := none, barcode := none, crc := none }) ∧
    (∀ (g : IMBGenerator) (m s r : Str), g.validate_inputs m s r = [] →
        ∀ t, pyInt? (g.generate_tracking_code m s r) = some t →
          g.generate_barcode m s r =
            some { valid := true, errors := [],
                   tracking_code := some (g.generate_tracking_code m s r),
                   barcode := some (codewords_to_characters
                     (encode_to_codewords_int t (calculate_crc_int t))),
                   crc := some (calculate_crc_int t) }) ∧
    (∀ (g : IMBGenerator) (m s r : Str) (res : GBResult),
        g.generate_barcode m s r = some res →
        (res.valid = false ∧ res.tracking_code = none ∧ res.barcode = none ∧
          res.crc = none ∧ res.errors ≠ []) ∨
        (res.valid = true ∧ res.errors = [] ∧ res.tracking_code ≠ none ∧
          res.barcode ≠ none ∧ res.crc ≠ none)) ∧
    ((IMBGenerator.init "00".toList "040".toList).generate_barcode
        "12345".toList "1".toList "90210543201".toList =
      some { valid := false, errors := [VError.mailerIdLenError 5],
             tracking_code := none, barcode := none, crc := none }) := by
  refine ⟨?_, ?_, ?_, by decide⟩
  · intro g m s r h
    simp only [IMBGenerator.generate_barcode]
    rw [if_pos h]
  · intro g m s r h t ht
    simp only [IMBGenerator.generate_barcode]
    rw [if_neg (fun hh => hh h), ht]
  · intro g m s r res h
    simp only [IMBGenerator.generate_barcode] at h
    by_cases hv : g.validate_inputs m s r ≠ []
    · rw [if_pos hv] at h
      rw [Option.some_inj] at h
      left
      rw [← h]
      exact ⟨rfl, rfl, rfl, rfl, hv⟩
    · rw [if_neg hv] at h
      cases hp : pyInt? (g.generate_tracking_code m s r) with
      | none =>
        rw [hp] at h
        exact absurd h (by simp)
      | some t =>
        rw [hp] at h
        rw [Option.some_inj] at h
        right
        rw [← h]
        exact ⟨rfl, rfl, by simp, by simp, by simp⟩

/-- Counterexample for C2 as stated: the validator accepts sequence
"-1" with no errors, yet `generate_barcode` raises (returns no
dictionary at all) instead of a fully populated valid result. -/
theorem C2_counterexample :
    (IMBGenerator.init "00".toList "040".toList).validate_inputs
        "123456".toList "-1".toList "90210543201".toList = [] ∧
    (IMBGenerator.init "00".toList "040".toList).generate_barcode
        "123456".toList "-1".toList "90210543201".toList = none :=
  ⟨by decide, by decide⟩

/-- Witness for C2: the invalid-input branch on mailer "12345". -/
theorem C2_witness :
    ((IMBGenerator.init "00".toList "040".toList).validate_inputs
        "12345".toList "1".toList "90210543201".toList ≠ []) ∧
    (IMBGenerator.init "00".toList "040".toList).generate_barcode
        "12345".toList "1".toList "90210543201".toList =
      some { valid := false,
             errors := (IMBGenerator.init "00".toList "040".toList).validate_inputs
               "12345".toList "1".toList "90210543201".toList,
             tracking_code := none, barcode := none, crc := none } :=
  ⟨by decide, C2_all_or_nothing.1 (IMBGenerator.init "00".toList "040".toList)
    "12345".toList "1".toList "90210543201".toList (by decide)⟩

end IMB
